import Mathlib

/-!
Verification of the `constellation-standalone` harness (`src/lib.rs`).

The harness runs a Constellation component as a standalone executable:
it resolves configuration directories, loads a configuration file,
creates the component, arms signal handlers (SIGTERM, SIGINT, SIGHUP),
runs the component, waits on a shutdown notification, and finally runs
the appropriate cleanup path (`shutdown` / `shutdown_err`).

We shallowly embed the control flow of `Standalone::main` as a function
from an outcome environment (which branch each fallible step takes) to
the ordered list of observable events it performs, plus the process
exit code of the `main` call itself.  The signal handler `handler` and
the configuration scan `load_config` and `config_dirs` are embedded
separately.
-/

namespace Constellation

/-- The three termination-class signals armed by `Standalone::main`
(SIGTERM, SIGINT, SIGHUP in the order the code registers them). -/
inductive Sig where
  | term : Sig
  | int : Sig
  | hup : Sig
deriving DecidableEq

/-- Observable events of one execution of `Standalone::main`.
Cleanup tokens are modelled as natural numbers; the component value
itself is opaque and carried implicitly. -/
inductive Event where
  /-- Step where `load_config` returned `None` and the failure is logged. -/
  | configErrLogged : Event
  /-- Step where `Self::create(arg_matches, config)` is invoked. -/
  | callCreate : Event
  /-- Step where `SHUTDOWN_NOTIFY.write(Notify::new())` constructs the notification primitive. -/
  | notifyInit : Event
  /-- Step where `signal(s, handler)` is attempted for signal `s`. -/
  | armSignal (s : Sig) : Event
  /-- Step where `report_signal_error(err)` logs a registration failure. -/
  | armErrLogged : Event
  /-- Step where `app.run()` is invoked. -/
  | callRun : Event
  /-- Step where the wait on `SHUTDOWN_NOTIFY` is invoked. -/
  | callWait : Event
  /-- Step where the wait returned an error and it is logged. -/
  | waitErrLogged : Event
  /-- Step where `Self::shutdown(createTok, runTok)` is invoked. -/
  | callShutdown (createTok : Nat) (runTok : Option Nat) : Event
  /-- Step where `Self::shutdown_err(createTok, runErrTok)` is invoked. -/
  | callShutdownErr (createTok : Nat) (runErrTok : Nat) : Event
deriving DecidableEq

/-- Outcome environment for one execution of `Standalone::main`: which
branch each fallible step takes, and the cleanup tokens produced.
The component type parameters `CreateCleanup`, `RunCleanup` and
`RunErrorCleanup` are modelled as `Nat`. -/
structure Env where
  /-- Whether `get_args` succeeded (otherwise the code prints the error and exits with status 1). -/
  argsOk : Bool
  /-- Whether `load_config` returned `Some(config)`. -/
  configFound : Bool
  /-- Result of `Self::create`: `ok createCleanup` or `error createCleanup`. -/
  createResult : Except Nat Nat
  /-- Whether `signal(SIGTERM, handler)` returned `0`. -/
  armTermOk : Bool
  /-- Whether `signal(SIGINT, handler)` returned `0`. -/
  armIntOk : Bool
  /-- Whether `signal(SIGHUP, handler)` returned `0`. -/
  armHupOk : Bool
  /-- Result of `app.run()`: `ok runCleanup` or `error runErrorCleanup`. -/
  runResult : Except Nat Nat
  /-- Whether `wait_no_reset()` returned `Ok`. -/
  waitOk : Bool

/-- The body of `Standalone::main` after argument parsing and logger
setup succeeded: the `if let Some(config) = load_config` block
(src/lib.rs lines 197-273), as the list of events it performs. -/
def mainBody (env : Env) : List Event :=
  if env.configFound then
    Event.callCreate ::
    match env.createResult with
    | Except.ok c =>
      Event.notifyInit ::
      Event.armSignal Sig.term ::
      if env.armTermOk then
        Event.armSignal Sig.int ::
        if env.armIntOk then
          Event.armSignal Sig.hup ::
          if env.armHupOk then
            Event.callRun ::
            match env.runResult with
            | Except.ok r =>
              Event.callWait ::
              ((if env.waitOk then [] else [Event.waitErrLogged]) ++
                [Event.callShutdown c (some r)])
            | Except.error e => [Event.callShutdownErr c e]
          else [Event.armErrLogged, Event.callShutdown c none]
        else [Event.armErrLogged, Event.callShutdown c none]
      else [Event.armErrLogged, Event.callShutdown c none]
    | Except.error c => [Event.callShutdown c none]
  else
    [Event.configErrLogged]

/-- Embedding of `Standalone::main` (src/lib.rs lines 176-274): the event trace of
the execution together with the process exit status.  When `get_args`
fails the code prints the error and calls `exit(1)`; in every other
case `main` returns normally and the process exits with status `0`. -/
def mainExec (env : Env) : List Event × Nat :=
  if env.argsOk then (mainBody env, 0) else ([], 1)

/-- Element `a` occurs in the list strictly before an occurrence of `b`. -/
def occursBefore (a b : α) : List α → Prop
  | [] => False
  | x :: xs => (x = a ∧ b ∈ xs) ∨ occursBefore a b xs

/-- Recognize `callShutdown` events (invocations of `Self::shutdown`). -/
def isShutdown : Event → Bool
  | Event.callShutdown _ _ => true
  | _ => false

/-- Recognize `callShutdownErr` events (invocations of `Self::shutdown_err`). -/
def isShutdownErr : Event → Bool
  | Event.callShutdownErr _ _ => true
  | _ => false

/-! ## The signal handler (src/lib.rs lines 284-301)

`static mut SHUTDOWN_ON_INT: bool = false;` and
the C handler function `handler(sig: c_int)`.  The state of the handler is the
escalation flag; one delivery produces the next flag value and a list
of handler events. -/

/-- Initial value of the `SHUTDOWN_ON_INT` static (src/lib.rs line 285). -/
def SHUTDOWN_ON_INT_init : Bool := false

/-- Observable events of one delivery to `handler`. -/
inductive HEvent where
  /-- Step where `exit(1)` terminates the process immediately. -/
  | exitProc (code : Nat) : HEvent
  /-- Step where the handler stores `true` into `SHUTDOWN_ON_INT`. -/
  | setFlag : HEvent
  /-- Step where the handler invokes `notify()` on `SHUTDOWN_NOTIFY`. -/
  | notifyCall : HEvent
  /-- Step where the error returned by `notify()` is logged. -/
  | notifyErrLogged : HEvent
deriving DecidableEq

/-- The tail of `handler`: call `notify()`, logging an error result. -/
def notifyEvents (notifyOk : Bool) : List HEvent :=
  HEvent.notifyCall :: (if notifyOk then [] else [HEvent.notifyErrLogged])

/-- One delivery of signal `sig` to `handler` with escalation flag
`flag`: the new flag value and the events performed.  `notifyOk` is the
outcome of the `notify()` call when it is reached.  Mirrors
src/lib.rs lines 287-301: on SIGINT with the flag set, `exit(1)` runs
and nothing further; on SIGINT with the flag clear, the flag is set
and control falls through to `notify()`; other signals go straight to
`notify()`. -/
def handler (notifyOk : Bool) (sig : Sig) (flag : Bool) : Bool × List HEvent :=
  if sig = Sig.int then
    if flag then (flag, [HEvent.exitProc 1])
    else (true, HEvent.setFlag :: notifyEvents notifyOk)
  else (flag, notifyEvents notifyOk)

/-- Deliver a list of signals in order, starting from escalation flag
`flag`; delivery stops when the handler terminates the process.
Returns the final flag and the concatenated events. -/
def runSignals (notifyOk : Bool) : List Sig → Bool → Bool × List HEvent
  | [], flag => (flag, [])
  | s :: rest, flag =>
    let step := handler notifyOk s flag
    if HEvent.exitProc 1 ∈ step.2 then step
    else
      let next := runSignals notifyOk rest step.1
      (next.1, step.2 ++ next.2)

/-! ## Configuration directory resolution (src/lib.rs lines 512-557) -/

/-- Default of `Standalone::SYSTEM_CONFIG_DIR` (src/lib.rs line 100). -/
def SYSTEM_CONFIG_DIR : String := "/usr/local/etc/constellation/"

/-- Default of `Standalone::HOME_CONFIG_SUBDIR` (src/lib.rs line 105). -/
def HOME_CONFIG_SUBDIR : String := ".config/constellation/"

/-- Environment feeding `config_dirs`: the `HOME` variable, the
resolved `confdir` argument (command line or the confdir environment
variables, already folded by `get_args`), and the
`CONSTELLATION_CONF_DIR` variable. -/
structure DirEnv where
  homeVar : Option String
  argConfdir : Option String
  confDirVar : Option String

/-- Embedding of `PathBuf::push` of a relative component: append, inserting a
separator when one is missing. -/
def pathJoin (a b : String) : String :=
  if a.endsWith "/" then a ++ b else a ++ "/" ++ b

/-- Embedding of `config_dirs` (src/lib.rs lines 512-557): the home configuration
directory first when `HOME` is set, then the override directory if
given, else the `CONSTELLATION_CONF_DIR` directory if set, else the
system-wide default. -/
def config_dirs (e : DirEnv) : List String :=
  (match e.homeVar with
   | some h => [pathJoin h HOME_CONFIG_SUBDIR]
   | none => []) ++
  [match e.argConfdir with
   | some p => p
   | none =>
     match e.confDirVar with
     | some p => p
     | none => SYSTEM_CONFIG_DIR]

/-! ## Configuration loading (src/lib.rs lines 616-668)

Directories and file names are modelled as naturals; the parsed
configuration value as a natural.  `FS.isFile d f` is
`dir.join(file).is_file()`; `FS.parse d f` is the combined outcome of
`File::open` and `serde_yaml::from_reader` (`none` covers both an open
error and a parse error, each of which is logged and scanning
continues). -/

structure FS where
  isFile : Nat → Nat → Bool
  parse : Nat → Nat → Option Nat

/-- The inner loop of `load_config`: for a fixed file name, try each
directory in order.  Returns the first successfully parsed
configuration (if any) and the list of `(file, dir)` candidates whose
open/parse failed and was logged before the loop ended. -/
def load_config_dir (fs : FS) (file : Nat) : List Nat → Option Nat × List (Nat × Nat)
  | [] => (none, [])
  | d :: ds =>
    if fs.isFile d file then
      match fs.parse d file with
      | some y => (some y, [])
      | none =>
        let r := load_config_dir fs file ds
        (r.1, (file, d) :: r.2)
    else load_config_dir fs file ds

/-- Embedding of `load_config` (src/lib.rs lines 616-668): outer loop over the
configuration file names `S::CONFIG_FILES`, inner loop over the
directories.  Returns the first successfully parsed configuration and
the logged open/parse errors, in order. -/
def load_config (fs : FS) (files dirs : List Nat) : Option Nat × List (Nat × Nat) :=
  match files with
  | [] => (none, [])
  | f :: rest =>
    let r := load_config_dir fs f dirs
    match r.1 with
    | some y => (some y, r.2)
    | none =>
      let r2 := load_config fs rest dirs
      (r2.1, r.2 ++ r2.2)

/-- Modelled from the spec (the ordering of claim C8): the scan the claim
describes, with the directories in the outer loop and the file names
in the inner loop, so that within a given directory all file names are
attempted before any later directory is consulted. -/
def load_config_claim_order (fs : FS) (files dirs : List Nat) : Option Nat :=
  match dirs with
  | [] => none
  | d :: rest =>
    match load_config_file_in_dir fs d files with
    | some y => some y
    | none => load_config_claim_order fs files rest
where
  load_config_file_in_dir (fs : FS) (d : Nat) : List Nat → Option Nat
    | [] => none
    | f :: fl =>
      if fs.isFile d f then
        match fs.parse d f with
        | some y => some y
        | none => load_config_file_in_dir fs d fl
      else load_config_file_in_dir fs d fl

/-- The candidate order the code actually uses: file-name major,
directory minor. -/
def candOrder (files dirs : List Nat) : List (Nat × Nat) :=
  files.flatMap (fun f => dirs.map (fun d => (f, d)))

/-- Linear scan of a candidate list: return the first successfully
parsed configuration, skipping absent files and continuing past
open/parse failures. -/
def firstParse (fs : FS) : List (Nat × Nat) → Option Nat
  | [] => none
  | (f, d) :: rest =>
    if fs.isFile d f then
      match fs.parse d f with
      | some y => some y
      | none => firstParse fs rest
    else firstParse fs rest

/-- Linear scan of a candidate list: the open/parse errors logged
before the scan ends (it ends at the first success or at exhaustion). -/
def scanErrs (fs : FS) : List (Nat × Nat) → List (Nat × Nat)
  | [] => []
  | (f, d) :: rest =>
    if fs.isFile d f then
      match fs.parse d f with
      | some _ => []
      | none => (f, d) :: scanErrs fs rest
    else scanErrs fs rest

/-! ## Concrete environments used by witnesses and counterexamples -/

/-- An execution in which every step succeeds. -/
def envAllOk : Env :=
  { argsOk := true, configFound := true, createResult := Except.ok 3,
    armTermOk := true, armIntOk := true, armHupOk := true,
    runResult := Except.ok 7, waitOk := true }

/-- An execution in which `run` fails. -/
def envRunFail : Env :=
  { argsOk := true, configFound := true, createResult := Except.ok 3,
    armTermOk := true, armIntOk := true, armHupOk := true,
    runResult := Except.error 9, waitOk := true }

/-- An execution in which `create` fails. -/
def envCreateFail : Env :=
  { argsOk := true, configFound := true, createResult := Except.error 4,
    armTermOk := true, armIntOk := true, armHupOk := true,
    runResult := Except.ok 7, waitOk := true }

/-- An execution in which arming the second signal (SIGINT) fails. -/
def envArmIntFail : Env :=
  { argsOk := true, configFound := true, createResult := Except.ok 3,
    armTermOk := true, armIntOk := false, armHupOk := true,
    runResult := Except.ok 7, waitOk := true }

/-- An execution in which no configuration file is found. -/
def envNoConfig : Env :=
  { argsOk := true, configFound := false, createResult := Except.ok 0,
    armTermOk := true, armIntOk := true, armHupOk := true,
    runResult := Except.ok 0, waitOk := true }

/-! ## Claim theorems -/

/-- C1: if create succeeds, all three signal registrations succeed and
`run` returns success, the engine calls `wait` and then invokes
`shutdown(create_cleanup, Some(run_cleanup))` exactly once; a `wait`
error is logged only and the same single `shutdown` invocation still
happens. -/
theorem standalone_run_success_shutdown (env : Env) (c r : Nat)
    (hargs : env.argsOk = true) (hconf : env.configFound = true)
    (hcreate : env.createResult = Except.ok c)
    (ht : env.armTermOk = true) (hi : env.armIntOk = true)
    (hh : env.armHupOk = true)
    (hrun : env.runResult = Except.ok r) :
    Event.callWait ∈ (mainExec env).1 ∧
    occursBefore Event.callWait (Event.callShutdown c (some r)) (mainExec env).1 ∧
    (mainExec env).1.filter isShutdown = [Event.callShutdown c (some r)] ∧
    (env.waitOk = false → Event.waitErrLogged ∈ (mainExec env).1) := by
  cases hw : env.waitOk <;>
    simp [mainExec, mainBody, hargs, hconf, hcreate, ht, hi, hh, hrun, hw,
      occursBefore, isShutdown, List.filter]

/-- Witness for C1 at a concrete all-success execution. -/
theorem standalone_run_success_shutdown_witness :
    Event.callWait ∈ (mainExec envAllOk).1 ∧
    occursBefore Event.callWait (Event.callShutdown 3 (some 7)) (mainExec envAllOk).1 ∧
    (mainExec envAllOk).1.filter isShutdown = [Event.callShutdown 3 (some 7)] ∧
    (envAllOk.waitOk = false → Event.waitErrLogged ∈ (mainExec envAllOk).1) :=
  standalone_run_success_shutdown envAllOk 3 7 rfl rfl rfl rfl rfl rfl rfl

/-- C2: if `run` returns an error, the engine invokes
`shutdown_err(create_cleanup, run_error_cleanup)` exactly once and
never invokes `shutdown`. -/
theorem standalone_run_failure_shutdown_err (env : Env) (c e : Nat)
    (hargs : env.argsOk = true) (hconf : env.configFound = true)
    (hcreate : env.createResult = Except.ok c)
    (ht : env.armTermOk = true) (hi : env.armIntOk = true)
    (hh : env.armHupOk = true)
    (hrun : env.runResult = Except.error e) :
    (mainExec env).1.filter isShutdownErr = [Event.callShutdownErr c e] ∧
    (mainExec env).1.filter isShutdown = [] := by
  simp [mainExec, mainBody, hargs, hconf, hcreate, ht, hi, hh, hrun,
    isShutdown, isShutdownErr, List.filter]

/-- Witness for C2 at a concrete run-failure execution. -/
theorem standalone_run_failure_shutdown_err_witness :
    (mainExec envRunFail).1.filter isShutdownErr = [Event.callShutdownErr 3 9] ∧
    (mainExec envRunFail).1.filter isShutdown = [] :=
  standalone_run_failure_shutdown_err envRunFail 3 9 rfl rfl rfl rfl rfl rfl rfl

/-- C3: if `create` returns an error (yielding only a `CreateCleanup`
token), the engine invokes `shutdown(create_cleanup, None)` exactly
once and never invokes `run` or `shutdown_err`. -/
theorem standalone_create_failure (env : Env) (c : Nat)
    (hargs : env.argsOk = true) (hconf : env.configFound = true)
    (hcreate : env.createResult = Except.error c) :
    (mainExec env).1.filter isShutdown = [Event.callShutdown c none] ∧
    Event.callRun ∉ (mainExec env).1 ∧
    (mainExec env).1.filter isShutdownErr = [] := by
  simp [mainExec, mainBody, hargs, hconf, hcreate,
    isShutdown, isShutdownErr, List.filter]

/-- Witness for C3 at a concrete create-failure execution. -/
theorem standalone_create_failure_witness :
    (mainExec envCreateFail).1.filter isShutdown = [Event.callShutdown 4 none] ∧
    Event.callRun ∉ (mainExec envCreateFail).1 ∧
    (mainExec envCreateFail).1.filter isShutdownErr = [] :=
  standalone_create_failure envCreateFail 4 rfl rfl rfl

/-- C4: if any of the three signal registrations fails, the remaining
signal kinds are not attempted, `shutdown(create_cleanup, None)` is
invoked exactly once, and `run` is never invoked. -/
theorem standalone_arm_failure (env : Env) (c : Nat)
    (hargs : env.argsOk = true) (hconf : env.configFound = true)
    (hcreate : env.createResult = Except.ok c)
    (hfail : (env.armTermOk && env.armIntOk && env.armHupOk) = false) :
    (mainExec env).1.filter isShutdown = [Event.callShutdown c none] ∧
    Event.callRun ∉ (mainExec env).1 ∧
    (env.armTermOk = false → Event.armSignal Sig.int ∉ (mainExec env).1 ∧
      Event.armSignal Sig.hup ∉ (mainExec env).1) ∧
    (env.armIntOk = false → Event.armSignal Sig.hup ∉ (mainExec env).1) := by
  cases ht : env.armTermOk <;> cases hi : env.armIntOk <;> cases hh : env.armHupOk <;>
    simp_all [mainExec, mainBody, isShutdown, List.filter]

/-- Witness for C4 at an execution where arming SIGINT fails. -/
theorem standalone_arm_failure_witness :
    (mainExec envArmIntFail).1.filter isShutdown = [Event.callShutdown 3 none] ∧
    Event.callRun ∉ (mainExec envArmIntFail).1 ∧
    (envArmIntFail.armTermOk = false → Event.armSignal Sig.int ∉ (mainExec envArmIntFail).1 ∧
      Event.armSignal Sig.hup ∉ (mainExec envArmIntFail).1) ∧
    (envArmIntFail.armIntOk = false → Event.armSignal Sig.hup ∉ (mainExec envArmIntFail).1) :=
  standalone_arm_failure envArmIntFail 3 rfl rfl rfl rfl

/-- C5: the shutdown notification primitive is constructed strictly
after `create` succeeds and strictly before any of the three signal
handlers is armed; when `create` fails or no configuration is found,
the primitive is never constructed and no handler is ever armed. -/
theorem notify_construction_ordering (env : Env) :
    (env.argsOk = true → env.configFound = true → env.createResult.isOk = true →
      occursBefore Event.callCreate Event.notifyInit (mainExec env).1 ∧
      (∀ s : Sig, Event.armSignal s ∈ (mainExec env).1 →
        occursBefore Event.notifyInit (Event.armSignal s) (mainExec env).1)) ∧
    ((env.configFound = false ∨ env.createResult.isOk = false) →
      Event.notifyInit ∉ (mainExec env).1 ∧
      ∀ s : Sig, Event.armSignal s ∉ (mainExec env).1) := by
  obtain ⟨ar, cf, cr, at1, ai, ah, rr, w⟩ := env
  refine ⟨?_, ?_⟩
  · intro h1 h2 h3
    subst h1
    subst h2
    cases cr with
    | error c => simp [Except.isOk, Except.toBool] at h3
    | ok c =>
      refine ⟨by simp [mainExec, mainBody, occursBefore], ?_⟩
      intro s hs
      cases at1 <;> cases ai <;> cases ah <;> cases rr <;> cases w <;> cases s <;>
        simp_all [mainExec, mainBody, occursBefore]
  · intro h
    cases ar
    · exact ⟨by simp [mainExec], fun s => by simp [mainExec]⟩
    · rcases h with h | h
      · subst h
        exact ⟨by simp [mainExec, mainBody], fun s => by simp [mainExec, mainBody]⟩
      · cases cr with
        | ok c => simp [Except.isOk, Except.toBool] at h
        | error c =>
          cases cf <;>
            exact ⟨by simp [mainExec, mainBody], fun s => by
              cases s <;> simp [mainExec, mainBody]⟩

/-- Witness for C5 at a concrete all-success execution. -/
theorem notify_construction_ordering_witness :
    occursBefore Event.callCreate Event.notifyInit (mainExec envAllOk).1 ∧
    (∀ s : Sig, Event.armSignal s ∈ (mainExec envAllOk).1 →
      occursBefore Event.notifyInit (Event.armSignal s) (mainExec envAllOk).1) :=
  (notify_construction_ordering envAllOk).1 rfl rfl rfl

/-- C6: the interrupt-escalation flag `SHUTDOWN_ON_INT` starts false;
the first SIGINT delivered to `handler` sets it true; and any SIGINT
delivered while the flag is true makes the handler `exit(1)`
immediately — its whole event list is the termination, so `notify()`
is not called and no shutdown path runs. -/
theorem interrupt_escalation (notifyOk : Bool) :
    SHUTDOWN_ON_INT_init = false ∧
    (handler notifyOk Sig.int SHUTDOWN_ON_INT_init).1 = true ∧
    (∀ flag : Bool, flag = true →
      handler notifyOk Sig.int flag = (true, [HEvent.exitProc 1]) ∧
      HEvent.notifyCall ∉ (handler notifyOk Sig.int flag).2) := by
  refine ⟨rfl, by simp [handler, SHUTDOWN_ON_INT_init], ?_⟩
  intro flag hflag
  subst hflag
  simp [handler]

/-- Witness for C6 with a successful `notify()` outcome. -/
theorem interrupt_escalation_witness :
    SHUTDOWN_ON_INT_init = false ∧
    (handler true Sig.int SHUTDOWN_ON_INT_init).1 = true ∧
    (∀ flag : Bool, flag = true →
      handler true Sig.int flag = (true, [HEvent.exitProc 1]) ∧
      HEvent.notifyCall ∉ (handler true Sig.int flag).2) :=
  interrupt_escalation true

/-- C9 counterexample: on the first SIGINT (flag at its initial value),
`handler` does not call `notify()` before setting the escalation flag —
the code sets `SHUTDOWN_ON_INT = true` first and only then falls
through to `notify()`. -/
theorem interrupt_notify_order_cex :
    ¬ occursBefore HEvent.notifyCall HEvent.setFlag
        (handler true Sig.int SHUTDOWN_ON_INT_init).2 := by
  simp [handler, SHUTDOWN_ON_INT_init, notifyEvents, occursBefore]

/-- C9 (amended): two SIGINTs in rapid succession make the process
terminate immediately on the second, and the first is not lost — the
handler calls `notify()` on the first delivery; however it sets the
escalation flag before calling `notify()`, not after. -/
theorem interrupt_rapid_succession (notifyOk : Bool) :
    runSignals notifyOk [Sig.int, Sig.int] SHUTDOWN_ON_INT_init =
      (true, (HEvent.setFlag :: notifyEvents notifyOk) ++ [HEvent.exitProc 1]) ∧
    HEvent.notifyCall ∈ (runSignals notifyOk [Sig.int, Sig.int] SHUTDOWN_ON_INT_init).2 ∧
    occursBefore HEvent.setFlag HEvent.notifyCall
      (handler notifyOk Sig.int SHUTDOWN_ON_INT_init).2 := by
  cases notifyOk <;>
    simp [runSignals, handler, SHUTDOWN_ON_INT_init, notifyEvents, occursBefore]

/-- Witness for the amended theorem for C9 with a successful `notify()`. -/
theorem interrupt_rapid_succession_witness :
    runSignals true [Sig.int, Sig.int] SHUTDOWN_ON_INT_init =
      (true, (HEvent.setFlag :: notifyEvents true) ++ [HEvent.exitProc 1]) ∧
    HEvent.notifyCall ∈ (runSignals true [Sig.int, Sig.int] SHUTDOWN_ON_INT_init).2 ∧
    occursBefore HEvent.setFlag HEvent.notifyCall
      (handler true Sig.int SHUTDOWN_ON_INT_init).2 :=
  interrupt_rapid_succession true

/-- C7 counterexample: in the configuration-absent execution the
failure is reported, but `Standalone::main` returns normally, so the
process exit status is `0` — not non-zero as the claim states. -/
theorem config_absent_exit_status_cex :
    Event.configErrLogged ∈ (mainExec envNoConfig).1 ∧
    ¬ (mainExec envNoConfig).2 ≠ 0 := by
  decide

/-- C7 (amended): when no configuration file is found, the engine
reports the failure and `main` returns normally (process exit status
`0`), and none of `create`, `run`, `shutdown` or `shutdown_err` is
ever invoked. -/
theorem config_absent_no_lifecycle (env : Env)
    (hargs : env.argsOk = true) (hconf : env.configFound = false) :
    (mainExec env).1 = [Event.configErrLogged] ∧
    (mainExec env).2 = 0 ∧
    Event.callCreate ∉ (mainExec env).1 ∧
    Event.callRun ∉ (mainExec env).1 ∧
    (mainExec env).1.filter isShutdown = [] ∧
    (mainExec env).1.filter isShutdownErr = [] := by
  simp [mainExec, mainBody, hargs, hconf, isShutdown, isShutdownErr, List.filter]

/-- Witness for the amended theorem for C7 at the concrete
configuration-absent execution. -/
theorem config_absent_no_lifecycle_witness :
    (mainExec envNoConfig).1 = [Event.configErrLogged] ∧
    (mainExec envNoConfig).2 = 0 ∧
    Event.callCreate ∉ (mainExec envNoConfig).1 ∧
    Event.callRun ∉ (mainExec envNoConfig).1 ∧
    (mainExec envNoConfig).1.filter isShutdown = [] ∧
    (mainExec envNoConfig).1.filter isShutdownErr = [] :=
  config_absent_no_lifecycle envNoConfig rfl rfl

/-- The first successful parse over an appended candidate list. -/
theorem firstParse_append (fs : FS) (l1 l2 : List (Nat × Nat)) :
    firstParse fs (l1 ++ l2) =
      match firstParse fs l1 with
      | some y => some y
      | none => firstParse fs l2 := by
  induction l1 with
  | nil => simp [firstParse]
  | cons p rest ih =>
    obtain ⟨f, d⟩ := p
    cases h : fs.isFile d f
    · simp [firstParse, h, ih]
    · cases hp : fs.parse d f <;> simp [firstParse, h, hp, ih]

/-- The logged open/parse errors over an appended candidate list. -/
theorem scanErrs_append (fs : FS) (l1 l2 : List (Nat × Nat)) :
    scanErrs fs (l1 ++ l2) =
      match firstParse fs l1 with
      | some _ => scanErrs fs l1
      | none => scanErrs fs l1 ++ scanErrs fs l2 := by
  induction l1 with
  | nil => simp [firstParse, scanErrs]
  | cons p rest ih =>
    obtain ⟨f, d⟩ := p
    cases h : fs.isFile d f
    · simp [firstParse, scanErrs, h, ih]
    · cases hp : fs.parse d f
      · simp [firstParse, scanErrs, h, hp, ih]
        cases hr : firstParse fs rest <;> simp
      · simp [firstParse, scanErrs, h, hp]

/-- The inner directory loop of `load_config` is the linear scan of the
candidates pairing its file name with each directory in order. -/
theorem load_config_dir_eq (fs : FS) (f : Nat) (dirs : List Nat) :
    load_config_dir fs f dirs =
      (firstParse fs (dirs.map (fun d => (f, d))),
        scanErrs fs (dirs.map (fun d => (f, d)))) := by
  induction dirs with
  | nil => simp [load_config_dir, firstParse, scanErrs]
  | cons d ds ih =>
    cases h : fs.isFile d f
    · simp [load_config_dir, firstParse, scanErrs, h, ih]
    · cases hp : fs.parse d f <;>
        simp [load_config_dir, firstParse, scanErrs, h, hp, ih]

/-- A filesystem on which the scan order of the code and the order the
claim describes pick different configuration files: file `0` is
present only in directory `1` (parsing to `10`), file `1` is present
only in directory `0` (parsing to `20`). -/
def fsC8 : FS :=
  { isFile := fun d f => (d == 1 && f == 0) || (d == 0 && f == 1),
    parse := fun d f =>
      if d == 1 && f == 0 then some 10
      else if d == 0 && f == 1 then some 20
      else none }

/-- C8 counterexample: `load_config` iterates file names in the outer
loop and directories in the inner loop, so on `fsC8` it returns the
preferred file name found in the later directory (`10`), while the
scan the claim describes (all file names within a directory before any
later directory) would return `20`. -/
theorem load_config_order_cex :
    (load_config fsC8 [0, 1] [0, 1]).1 = some 10 ∧
    load_config_claim_order fsC8 [0, 1] [0, 1] = some 20 ∧
    (load_config fsC8 [0, 1] [0, 1]).1 ≠ load_config_claim_order fsC8 [0, 1] [0, 1] := by
  decide

/-- C8 (amended): `load_config` scans candidates with the file names in
the outer loop and the directories in the inner loop — it is the
linear scan, in `candOrder` (file-name major) order, that returns the
first successfully parsed file and logs every open/parse error
encountered on the way; in particular a parse error on a found
candidate does not abort the scan, it is logged and scanning continues
with the next candidate. -/
theorem load_config_scan_order (fs : FS) (files dirs : List Nat) :
    load_config fs files dirs =
      (firstParse fs (candOrder files dirs), scanErrs fs (candOrder files dirs)) ∧
    (∀ f d rest, fs.isFile d f = true → fs.parse d f = none →
      firstParse fs ((f, d) :: rest) = firstParse fs rest ∧
      scanErrs fs ((f, d) :: rest) = (f, d) :: scanErrs fs rest) := by
  refine ⟨?_, ?_⟩
  · induction files with
    | nil => simp [load_config, candOrder, firstParse, scanErrs]
    | cons f rest ih =>
      have hcand : candOrder (f :: rest) dirs =
          dirs.map (fun d => (f, d)) ++ candOrder rest dirs := by
        simp [candOrder]
      cases hr : firstParse fs (dirs.map (fun d => (f, d))) <;>
        simp [load_config, load_config_dir_eq, hcand, firstParse_append,
          scanErrs_append, hr, ih]
  · intro f d rest hfile hp
    exact ⟨by simp [firstParse, hfile, hp], by simp [scanErrs, hfile, hp]⟩

/-- Witness for the amended theorem for C8 on the concrete filesystem. -/
theorem load_config_scan_order_witness :
    load_config fsC8 [0, 1] [0, 1] =
      (firstParse fsC8 (candOrder [0, 1] [0, 1]),
        scanErrs fsC8 (candOrder [0, 1] [0, 1])) ∧
    (∀ f d rest, fsC8.isFile d f = true → fsC8.parse d f = none →
      firstParse fsC8 ((f, d) :: rest) = firstParse fsC8 rest ∧
      scanErrs fsC8 ((f, d) :: rest) = (f, d) :: scanErrs fsC8 rest) :=
  load_config_scan_order fsC8 [0, 1] [0, 1]

/-- C10: the configuration-directory list is never empty and has at
most two entries: the home configuration directory first when `HOME`
is set, followed by exactly one of the override directory, the
`CONSTELLATION_CONF_DIR` directory, or the system-wide default — the
default being used only when neither an override nor the environment
variable is present. -/
theorem config_dirs_shape (e : DirEnv) :
    0 < (config_dirs e).length ∧
    (config_dirs e).length ≤ 2 ∧
    (∀ h, e.homeVar = some h →
      (config_dirs e).head? = some (pathJoin h HOME_CONFIG_SUBDIR)) ∧
    (e.homeVar = none → (config_dirs e).length = 1) ∧
    (∀ p, e.argConfdir = some p → (config_dirs e).getLast? = some p) ∧
    (∀ p, e.argConfdir = none → e.confDirVar = some p →
      (config_dirs e).getLast? = some p) ∧
    (e.argConfdir = none → e.confDirVar = none →
      (config_dirs e).getLast? = some SYSTEM_CONFIG_DIR) := by
  obtain ⟨h, a, c⟩ := e
  cases h <;> cases a <;> cases c <;> simp [config_dirs, List.getLast?]

/-- Witness for C10 at a concrete environment with `HOME` set, no
override argument and `CONSTELLATION_CONF_DIR` unset. -/
theorem config_dirs_shape_witness :
    0 < (config_dirs (DirEnv.mk (some "/home/u") none none)).length ∧
    (config_dirs (DirEnv.mk (some "/home/u") none none)).length ≤ 2 ∧
    (∀ h, (DirEnv.mk (some "/home/u") none none).homeVar = some h →
      (config_dirs (DirEnv.mk (some "/home/u") none none)).head? =
        some (pathJoin h HOME_CONFIG_SUBDIR)) ∧
    ((DirEnv.mk (some "/home/u") none none).homeVar = none →
      (config_dirs (DirEnv.mk (some "/home/u") none none)).length = 1) ∧
    (∀ p, (DirEnv.mk (some "/home/u") none none).argConfdir = some p →
      (config_dirs (DirEnv.mk (some "/home/u") none none)).getLast? = some p) ∧
    (∀ p, (DirEnv.mk (some "/home/u") none none).argConfdir = none →
      (DirEnv.mk (some "/home/u") none none).confDirVar = some p →
      (config_dirs (DirEnv.mk (some "/home/u") none none)).getLast? = some p) ∧
    ((DirEnv.mk (some "/home/u") none none).argConfdir = none →
      (DirEnv.mk (some "/home/u") none none).confDirVar = none →
      (config_dirs (DirEnv.mk (some "/home/u") none none)).getLast? =
        some SYSTEM_CONFIG_DIR) :=
  config_dirs_shape (DirEnv.mk (some "/home/u") none none)

end Constellation
